import Mathlib

/-!
Shallow embedding of the content-synchronization routine of the
devvit-widget-automator app: the scheduled job handler `onRun` in
`src/main.tsx` (the "Summary Update Job") and the `updateWidget` helper in
`extendedDevvit`. Collaborator responses (HTTP fetch, widget store, media
uploader, redis, update/add plugin calls) are supplied through an explicit
environment; the routine is modelled as a pure function returning the run's
outcome, the ordered trace of side-effecting calls it issued, and the final
value of the redis cache token (`summary:widget:last_modified`).

JavaScript truthiness of strings (`if (!s)`, `if (widgetData.id)`,
`if (apiLastModified)`) is modelled by `strTruthy`: an absent value and the
empty string are both falsy.
-/

namespace DevvitWidgetAutomator

/-- Kind of an existing subreddit widget, as discriminated by the job via
`instanceof TextAreaWidget` / `instanceof ImageWidget`; `other` stands for
any other widget class. -/
inductive WidgetKind where
  | text
  | image
  | other
deriving DecidableEq

/-- An existing widget as returned by `context.reddit.getWidgets`. -/
structure Widget where
  id : String
  name : String
  kind : WidgetKind
deriving DecidableEq

/-- Result of `context.media.upload`. -/
structure MediaAsset where
  mediaUrl : String
deriving DecidableEq

/-- The HTTP response of the conditional fetch: status code, the
`Content-Type` header (absent when not sent), the `Last-Modified` header
(absent when not sent), and the text body. -/
structure FetchResponse where
  status : Nat
  contentType : Option String
  lastModified : Option String
  body : String
deriving DecidableEq

/-- Inputs of one run: the context/settings reads, the stored redis token,
the fetch response, the widget list, and the results the collaborators
return for the (at most one) upload, update and add call of this run. -/
structure Env where
  subredditName : Option String
  widgetNameSetting : Option String
  widgetDomainSetting : Option String
  storedToken : Option String
  response : FetchResponse
  widgets : List Widget
  uploadResult : Option MediaAsset
  updateResult : Option String
  addResult : Option String
deriving DecidableEq

/-- The `widgetData` object built by the job: `type` is the string
discriminant ('image' or 'textarea'), `id` the existing widget's id when one
survived the variant check, `text` the body for text widgets, `dataUrl` the
re-hosted media URL for image widgets. -/
structure WidgetData where
  type : String
  id : Option String
  subreddit : String
  shortName : String
  text : Option String
  dataUrl : Option String
deriving DecidableEq

/-- One side-effecting collaborator call issued by the run, in order. -/
inductive Event where
  | listWidgets
  | deleteWidget (id : String)
  | upload (url : String)
  | update (wd : WidgetData)
  | create (wd : WidgetData)
  | setToken (value : String)
deriving DecidableEq

/-- Outcome of a run, following the spec's taxonomy; `configError` covers the
early returns for missing context/settings, `exception` a thrown error caught
by the surrounding try/catch. -/
inductive Outcome where
  | configError
  | unchanged
  | httpError
  | invalidContentType
  | ambiguousExisting
  | unknownExistingType
  | uploadFailed
  | updateFailed
  | createFailed
  | updated
  | created
  | exception (msg : String)
deriving DecidableEq

/-- Result of one run: outcome, ordered trace of issued calls, and the final
value stored under the last-modified redis key. -/
structure RunResult where
  outcome : Outcome
  events : List Event
  token : Option String
deriving DecidableEq

/-- JavaScript truthiness of a possibly-absent string: `undefined`/`null` and
the empty string are falsy. -/
def strTruthy : Option String → Bool
  | none => false
  | some s => s != ""

/-- Model of JavaScript `toLowerCase()` (character-wise ASCII lowering,
defined over the character list so it evaluates by `decide`). -/
def lowerStr (s : String) : String := ⟨s.data.map Char.toLower⟩

/-- Model of JavaScript `startsWith`: `strStartsWith s p` is true when `p` is
a prefix of `s` (defined over the character lists so it evaluates by
`decide`). -/
def strStartsWith (s p : String) : Bool := List.isPrefixOf p.data s.data

/-- Shallow embedding of `updateWidget` from `extendedDevvit`: a switch on the
`type` discriminant routes to the image or textarea plugin call (whose result
the environment supplies; `none` stands for a falsy response, i.e. failure);
any other type throws 'Unknown widget type'. -/
def updateWidget (widgetData : WidgetData) (pluginResult : Option String) :
    Except String (Option String) :=
  if widgetData.type == "image" then Except.ok pluginResult
  else if widgetData.type == "textarea" then Except.ok pluginResult
  else Except.error "Unknown widget type"

/-- Final step of the job: read the response's `Last-Modified` header and, when
truthy, write it to redis; otherwise only warn, leaving the token untouched. -/
def saveLastModified (env : Env) (outcome : Outcome) (events : List Event) :
    RunResult :=
  match env.response.lastModified with
  | some lm =>
      if lm != "" then ⟨outcome, events ++ [Event.setToken lm], some lm⟩
      else ⟨outcome, events, env.storedToken⟩
  | none => ⟨outcome, events, env.storedToken⟩

/-- The core `widgetData` object the job builds before the add-or-update
step: discriminant string, optional reused `id`, body text for text content,
re-hosted media URL for image content. -/
def mkWidgetData (env : Env) (subredditName widgetName : String)
    (contentIsImage : Bool) (existingWidget : Option Widget)
    (mediaAsset : Option MediaAsset) : WidgetData :=
  { type := if contentIsImage then "image" else "textarea"
    id := existingWidget.map Widget.id
    subreddit := subredditName
    shortName := widgetName
    text := if contentIsImage then none else some env.response.body
    dataUrl := mediaAsset.map MediaAsset.mediaUrl }

/-- The "Widget Add or Update" section: build `widgetData`, then update when
`widgetData.id` is truthy (failure returns without a token write), otherwise
add a new widget (failure returns without a token write); on success fall
through to the last-modified save. -/
def buildAndStore (env : Env) (subredditName widgetName : String)
    (contentIsImage : Bool) (existingWidget : Option Widget)
    (mediaAsset : Option MediaAsset) (events : List Event) : RunResult :=
  let widgetData : WidgetData :=
    mkWidgetData env subredditName widgetName contentIsImage existingWidget mediaAsset
  if strTruthy widgetData.id then
    match updateWidget widgetData env.updateResult with
    | Except.error msg =>
        ⟨Outcome.exception msg, events ++ [Event.update widgetData], env.storedToken⟩
    | Except.ok none =>
        ⟨Outcome.updateFailed, events ++ [Event.update widgetData], env.storedToken⟩
    | Except.ok (some _) =>
        saveLastModified env Outcome.updated (events ++ [Event.update widgetData])
  else
    match env.addResult with
    | none => ⟨Outcome.createFailed, events ++ [Event.create widgetData], env.storedToken⟩
    | some _ => saveLastModified env Outcome.created (events ++ [Event.create widgetData])

/-- The "Image Upload" section: for image content, upload the fetch URL through
the media service first; a falsy asset aborts the run. -/
def uploadAndWrite (env : Env) (subredditName widgetName fetchUrl : String)
    (contentIsImage : Bool) (existingWidget : Option Widget)
    (events : List Event) : RunResult :=
  if contentIsImage then
    match env.uploadResult with
    | none => ⟨Outcome.uploadFailed, events ++ [Event.upload fetchUrl], env.storedToken⟩
    | some mediaAsset =>
        buildAndStore env subredditName widgetName contentIsImage existingWidget
          (some mediaAsset) (events ++ [Event.upload fetchUrl])
  else
    buildAndStore env subredditName widgetName contentIsImage existingWidget none events

/-- The "Fetch Existing Widgets" and "Check Existing Widget Type" sections:
list the subreddit widgets, filter case-insensitively by the configured name,
refuse on more than one match, refuse on an unrecognized widget class, and
delete the match when its kind differs from the fetched content's
classification (treating it as absent afterwards). -/
def widgetPhase (env : Env) (subredditName widgetName fetchUrl : String)
    (contentIsImage : Bool) : RunResult :=
  let nameMatchWidgets := env.widgets.filter (fun w => lowerStr w.name == widgetName)
  if 1 < nameMatchWidgets.length then
    ⟨Outcome.ambiguousExisting, [Event.listWidgets], env.storedToken⟩
  else
    match nameMatchWidgets.head? with
    | none =>
        uploadAndWrite env subredditName widgetName fetchUrl contentIsImage none
          [Event.listWidgets]
    | some w =>
        match w.kind with
        | WidgetKind.other =>
            ⟨Outcome.unknownExistingType, [Event.listWidgets], env.storedToken⟩
        | k =>
            if (k == WidgetKind.image) != contentIsImage then
              uploadAndWrite env subredditName widgetName fetchUrl contentIsImage none
                [Event.listWidgets, Event.deleteWidget w.id]
            else
              uploadAndWrite env subredditName widgetName fetchUrl contentIsImage (some w)
                [Event.listWidgets]

/-- The "Parameter Validation" section: subreddit name from context, widget
name setting (lower-cased), and domain setting must all be truthy; returns the
validated triple or `none` for the early config-error return. -/
def validateSettings (env : Env) : Option (String × String × String) :=
  match env.subredditName with
  | none => none
  | some sub =>
      if sub == "" then none
      else
        match env.widgetNameSetting with
        | none => none
        | some nameSetting =>
            let widgetName := lowerStr nameSetting
            if widgetName == "" then none
            else
              match env.widgetDomainSetting with
              | none => none
              | some dom => if dom == "" then none else some (sub, widgetName, dom)

/-- Shallow embedding of the scheduled job handler `onRun`: validation,
conditional fetch response checks (304, non-200, content type), then the
widget reconciliation phase. -/
def onRun (env : Env) : RunResult :=
  match validateSettings env with
  | none => ⟨Outcome.configError, [], env.storedToken⟩
  | some (subredditName, widgetName, widgetDomain) =>
      let fetchUrl := "https://" ++ widgetDomain ++ "/api/v1"
      if env.response.status == 304 then ⟨Outcome.unchanged, [], env.storedToken⟩
      else if env.response.status != 200 then ⟨Outcome.httpError, [], env.storedToken⟩
      else
        match env.response.contentType with
        | none => ⟨Outcome.invalidContentType, [], env.storedToken⟩
        | some declaredType =>
            let resultContentType := lowerStr declaredType
            if strStartsWith resultContentType "text/plain"
                || strStartsWith resultContentType "image/" then
              widgetPhase env subredditName widgetName fetchUrl
                (strStartsWith resultContentType "image/")
            else ⟨Outcome.invalidContentType, [], env.storedToken⟩

/-- Predicate picking out widget-delete calls of a trace. -/
def isDelete : Event → Bool
  | Event.deleteWidget _ => true
  | _ => false

/-- Predicate picking out media-upload calls of a trace. -/
def isUpload : Event → Bool
  | Event.upload _ => true
  | _ => false

/-- Predicate picking out widget-update calls of a trace. -/
def isUpdate : Event → Bool
  | Event.update _ => true
  | _ => false

/-- Predicate picking out widget-create (add) calls of a trace. -/
def isCreate : Event → Bool
  | Event.create _ => true
  | _ => false

/-- Predicate picking out widget-create calls that carry no `id`. -/
def isCreateNoId : Event → Bool
  | Event.create wd => wd.id == none
  | _ => false

/-- Predicate picking out widget-update calls carrying the given `id`. -/
def isUpdateWithId (i : String) : Event → Bool
  | Event.update wd => wd.id == some i
  | _ => false

/-- Predicate picking out cache-token writes of a trace. -/
def isSetToken : Event → Bool
  | Event.setToken _ => true
  | _ => false

/-- Number of cache-token writes in a trace. -/
def tokenWrites (events : List Event) : Nat := events.countP (fun e => isSetToken e)

/-- The environment with the response's declared content type replaced. -/
def withContentType (env : Env) (ct : Option String) : Env :=
  { env with response := { env.response with contentType := ct } }

/-- A concrete baseline environment used by the witnesses below. -/
def demoEnv : Env :=
  { subredditName := some "hurricane"
    widgetNameSetting := some "Summary"
    widgetDomainSetting := some "example.org"
    storedToken := some "tok0"
    response := { status := 200, contentType := some "text/plain",
                  lastModified := some "lm1", body := "body" }
    widgets := []
    uploadResult := some ⟨"https://media/a"⟩
    updateResult := some "u1"
    addResult := some "a1" }
/-- The demo environment with a 204 No Content response: a 2xx success
status that is not 200. -/
def env204 : Env := { demoEnv with response := { demoEnv.response with status := 204 } }
/-- The cache-token contract of a run result: the token is written exactly
once, with the response's last-modified value, when the run reached the
updated or created outcome and the response carried a truthy last-modified
header; in every other case there is no token write and the stored token is
unchanged. -/
def TokenSpec (env : Env) (r : RunResult) : Prop :=
  (((r.outcome = Outcome.updated ∨ r.outcome = Outcome.created) ∧
      strTruthy env.response.lastModified = true) →
    (r.events.countP isSetToken = 1 ∧ r.token = env.response.lastModified)) ∧
  (¬((r.outcome = Outcome.updated ∨ r.outcome = Outcome.created) ∧
      strTruthy env.response.lastModified = true) →
    (r.events.countP isSetToken = 0 ∧ r.token = env.storedToken))
/-- The demo environment with an existing same-named text widget, an image
response, and a failing media upload. -/
def envMismatchUploadFail : Env :=
  { demoEnv with
      response := { demoEnv.response with contentType := some "image/png" },
      widgets := [⟨"w1", "Summary", WidgetKind.text⟩],
      uploadResult := none }
/-- The demo environment with an existing same-named image widget and a
text response (successful collaborators). -/
def envMismatchTextFresh : Env :=
  { demoEnv with widgets := [⟨"w9", "Summary", WidgetKind.image⟩] }
/-- The demo environment with an existing same-named text widget, a text
response, and an update call that reports failure. -/
def envTextUpdateFail : Env :=
  { demoEnv with
      widgets := [⟨"w1", "Summary", WidgetKind.text⟩],
      updateResult := none }
/-- The demo environment with exactly one existing same-named text widget
and successful collaborators. -/
def envTextUpdateOk : Env :=
  { demoEnv with widgets := [⟨"w1", "SUMMARY", WidgetKind.text⟩] }

/-- The widget-data object the run on `envTextUpdateOk` passes to the
update call. -/
def wdTextW1 : WidgetData :=
  { type := "textarea"
    id := some "w1"
    subreddit := "hurricane"
    shortName := "summary"
    text := some "body"
    dataUrl := none }

/-!
Characterization lemmas: each layer of the routine is described by an
exhaustive disjunction over its control-flow branches, used by the claim
theorems below.
-/

theorem updateWidget_mkWidgetData (env : Env) (sub wn : String) (cii : Bool)
    (ew : Option Widget) (ma : Option MediaAsset) :
    updateWidget (mkWidgetData env sub wn cii ew ma) env.updateResult =
      Except.ok env.updateResult := by
  cases cii <;> rfl

theorem mkWidgetData_id (env : Env) (sub wn : String) (cii : Bool)
    (ew : Option Widget) (ma : Option MediaAsset) :
    (mkWidgetData env sub wn cii ew ma).id = ew.map Widget.id := rfl

theorem saveLastModified_spec (env : Env) (o : Outcome) (es : List Event) :
    (saveLastModified env o es).outcome = o ∧
    ((strTruthy env.response.lastModified = true ∧
        (saveLastModified env o es).events =
          es ++ [Event.setToken (env.response.lastModified.getD "")] ∧
        (saveLastModified env o es).token = env.response.lastModified)
     ∨ (strTruthy env.response.lastModified = false ∧
        (saveLastModified env o es).events = es ∧
        (saveLastModified env o es).token = env.storedToken)) := by
  unfold saveLastModified strTruthy
  cases h : env.response.lastModified with
  | none => simp
  | some lm =>
      by_cases hlm : lm = ""
      · simp [hlm]
      · simp [hlm]

theorem buildAndStore_spec (env : Env) (sub wn : String) (cii : Bool)
    (ew : Option Widget) (ma : Option MediaAsset) (es : List Event) :
    (strTruthy (ew.map Widget.id) = true ∧ env.updateResult = none ∧
        buildAndStore env sub wn cii ew ma es =
          ⟨Outcome.updateFailed,
            es ++ [Event.update (mkWidgetData env sub wn cii ew ma)], env.storedToken⟩)
    ∨ (strTruthy (ew.map Widget.id) = true ∧ env.updateResult ≠ none ∧
        buildAndStore env sub wn cii ew ma es =
          saveLastModified env Outcome.updated
            (es ++ [Event.update (mkWidgetData env sub wn cii ew ma)]))
    ∨ (strTruthy (ew.map Widget.id) = false ∧ env.addResult = none ∧
        buildAndStore env sub wn cii ew ma es =
          ⟨Outcome.createFailed,
            es ++ [Event.create (mkWidgetData env sub wn cii ew ma)], env.storedToken⟩)
    ∨ (strTruthy (ew.map Widget.id) = false ∧ env.addResult ≠ none ∧
        buildAndStore env sub wn cii ew ma es =
          saveLastModified env Outcome.created
            (es ++ [Event.create (mkWidgetData env sub wn cii ew ma)])) := by
  simp only [buildAndStore, updateWidget_mkWidgetData, mkWidgetData_id]
  cases ht : strTruthy (ew.map Widget.id) with
  | false =>
      cases ha : env.addResult <;> simp [ht, ha]
  | true =>
      cases hu : env.updateResult <;> simp [ht, hu]

theorem uploadAndWrite_spec (env : Env) (sub wn url : String) (cii : Bool)
    (ew : Option Widget) (es : List Event) :
    (cii = true ∧ env.uploadResult = none ∧
        uploadAndWrite env sub wn url cii ew es =
          ⟨Outcome.uploadFailed, es ++ [Event.upload url], env.storedToken⟩)
    ∨ (cii = true ∧ env.uploadResult ≠ none ∧
        uploadAndWrite env sub wn url cii ew es =
          buildAndStore env sub wn cii ew env.uploadResult (es ++ [Event.upload url]))
    ∨ (cii = false ∧
        uploadAndWrite env sub wn url cii ew es =
          buildAndStore env sub wn cii ew none es) := by
  cases cii with
  | false => simp [uploadAndWrite]
  | true => cases hm : env.uploadResult <;> simp [uploadAndWrite, hm]

theorem widgetPhase_spec (env : Env) (sub wn url : String) (cii : Bool) :
    (1 < (env.widgets.filter (fun w => lowerStr w.name == wn)).length ∧
        widgetPhase env sub wn url cii =
          ⟨Outcome.ambiguousExisting, [Event.listWidgets], env.storedToken⟩)
    ∨ (env.widgets.filter (fun w => lowerStr w.name == wn) = [] ∧
        widgetPhase env sub wn url cii =
          uploadAndWrite env sub wn url cii none [Event.listWidgets])
    ∨ (∃ w, env.widgets.filter (fun w => lowerStr w.name == wn) = [w] ∧
        w.kind = WidgetKind.other ∧
        widgetPhase env sub wn url cii =
          ⟨Outcome.unknownExistingType, [Event.listWidgets], env.storedToken⟩)
    ∨ (∃ w, env.widgets.filter (fun w => lowerStr w.name == wn) = [w] ∧
        w.kind ≠ WidgetKind.other ∧ ((w.kind == WidgetKind.image) != cii) = true ∧
        widgetPhase env sub wn url cii =
          uploadAndWrite env sub wn url cii none
            [Event.listWidgets, Event.deleteWidget w.id])
    ∨ (∃ w, env.widgets.filter (fun w => lowerStr w.name == wn) = [w] ∧
        w.kind ≠ WidgetKind.other ∧ ((w.kind == WidgetKind.image) != cii) = false ∧
        widgetPhase env sub wn url cii =
          uploadAndWrite env sub wn url cii (some w) [Event.listWidgets]) := by
  simp only [widgetPhase]
  rcases hms : env.widgets.filter (fun w => lowerStr w.name == wn) with _ | ⟨w, _ | ⟨w2, t⟩⟩
  · simp [hms]
  · cases hk : w.kind with
    | other => simp [hms, hk]
    | text => cases cii <;> simp [hms, hk]
    | image => cases cii <;> simp [hms, hk]
  · simp [hms]

theorem onRun_spec (env : Env) :
    (validateSettings env = none ∧
        onRun env = ⟨Outcome.configError, [], env.storedToken⟩)
    ∨ (∃ sub wn dom, validateSettings env = some (sub, wn, dom) ∧
        ((env.response.status = 304 ∧
            onRun env = ⟨Outcome.unchanged, [], env.storedToken⟩)
         ∨ (env.response.status ≠ 304 ∧ env.response.status ≠ 200 ∧
            onRun env = ⟨Outcome.httpError, [], env.storedToken⟩)
         ∨ (env.response.status = 200 ∧ env.response.contentType = none ∧
            onRun env = ⟨Outcome.invalidContentType, [], env.storedToken⟩)
         ∨ (env.response.status = 200 ∧ ∃ ct, env.response.contentType = some ct ∧
            (strStartsWith (lowerStr ct) "text/plain"
              || strStartsWith (lowerStr ct) "image/") = false ∧
            onRun env = ⟨Outcome.invalidContentType, [], env.storedToken⟩)
         ∨ (env.response.status = 200 ∧ ∃ ct, env.response.contentType = some ct ∧
            (strStartsWith (lowerStr ct) "text/plain"
              || strStartsWith (lowerStr ct) "image/") = true ∧
            onRun env = widgetPhase env sub wn ("https://" ++ dom ++ "/api/v1")
              (strStartsWith (lowerStr ct) "image/")))) := by
  simp only [onRun]
  rcases hv : validateSettings env with _ | ⟨⟨sub, wn, dom⟩⟩
  · simp
  · refine Or.inr ⟨sub, wn, dom, rfl, ?_⟩
    by_cases h304 : env.response.status = 304
    · simp [h304]
    · by_cases h200 : env.response.status = 200
      · rcases hct : env.response.contentType with _ | ct
        · simp [h304, h200, hct]
        · cases hcl : (strStartsWith (lowerStr ct) "text/plain"
              || strStartsWith (lowerStr ct) "image/") with
          | false =>
              refine Or.inr (Or.inr (Or.inr (Or.inl ⟨h200, ct, rfl, hcl, ?_⟩)))
              simp [h304, h200, hct, hcl]
          | true =>
              refine Or.inr (Or.inr (Or.inr (Or.inr ⟨h200, ct, rfl, hcl, ?_⟩)))
              simp [h304, h200, hct, hcl]
      · simp [h304, h200]

theorem buildAndStore_outcome (env : Env) (sub wn : String) (cii : Bool)
    (ew : Option Widget) (ma : Option MediaAsset) (es : List Event) :
    (buildAndStore env sub wn cii ew ma es).outcome = Outcome.updateFailed ∨
    (buildAndStore env sub wn cii ew ma es).outcome = Outcome.updated ∨
    (buildAndStore env sub wn cii ew ma es).outcome = Outcome.createFailed ∨
    (buildAndStore env sub wn cii ew ma es).outcome = Outcome.created := by
  rcases buildAndStore_spec env sub wn cii ew ma es with
      ⟨_, _, h⟩ | ⟨_, _, h⟩ | ⟨_, _, h⟩ | ⟨_, _, h⟩ <;> rw [h]
  · simp
  · exact Or.inr (Or.inl (saveLastModified_spec env Outcome.updated _).1)
  · simp
  · exact Or.inr (Or.inr (Or.inr (saveLastModified_spec env Outcome.created _).1))

theorem uploadAndWrite_outcome (env : Env) (sub wn url : String) (cii : Bool)
    (ew : Option Widget) (es : List Event) :
    (uploadAndWrite env sub wn url cii ew es).outcome = Outcome.uploadFailed ∨
    (uploadAndWrite env sub wn url cii ew es).outcome = Outcome.updateFailed ∨
    (uploadAndWrite env sub wn url cii ew es).outcome = Outcome.updated ∨
    (uploadAndWrite env sub wn url cii ew es).outcome = Outcome.createFailed ∨
    (uploadAndWrite env sub wn url cii ew es).outcome = Outcome.created := by
  rcases uploadAndWrite_spec env sub wn url cii ew es with
      ⟨_, _, h⟩ | ⟨_, _, h⟩ | ⟨_, h⟩ <;> rw [h]
  · simp
  · exact Or.inr (buildAndStore_outcome env sub wn cii ew env.uploadResult _)
  · exact Or.inr (buildAndStore_outcome env sub wn cii ew none _)

theorem widgetPhase_outcome (env : Env) (sub wn url : String) (cii : Bool) :
    (widgetPhase env sub wn url cii).outcome = Outcome.ambiguousExisting ∨
    (widgetPhase env sub wn url cii).outcome = Outcome.unknownExistingType ∨
    (widgetPhase env sub wn url cii).outcome = Outcome.uploadFailed ∨
    (widgetPhase env sub wn url cii).outcome = Outcome.updateFailed ∨
    (widgetPhase env sub wn url cii).outcome = Outcome.updated ∨
    (widgetPhase env sub wn url cii).outcome = Outcome.createFailed ∨
    (widgetPhase env sub wn url cii).outcome = Outcome.created := by
  rcases widgetPhase_spec env sub wn url cii with
      ⟨_, h⟩ | ⟨_, h⟩ | ⟨w, _, _, h⟩ | ⟨w, _, _, _, h⟩ | ⟨w, _, _, _, h⟩ <;> rw [h]
  · simp
  · exact Or.inr (Or.inr (uploadAndWrite_outcome env sub wn url cii none _))
  · simp
  · exact Or.inr (Or.inr (uploadAndWrite_outcome env sub wn url cii none _))
  · exact Or.inr (Or.inr (uploadAndWrite_outcome env sub wn url cii (some w) _))

theorem onRun_outcome (env : Env) :
    (onRun env).outcome = Outcome.configError ∨
    (onRun env).outcome = Outcome.unchanged ∨
    (onRun env).outcome = Outcome.httpError ∨
    (onRun env).outcome = Outcome.invalidContentType ∨
    (onRun env).outcome = Outcome.ambiguousExisting ∨
    (onRun env).outcome = Outcome.unknownExistingType ∨
    (onRun env).outcome = Outcome.uploadFailed ∨
    (onRun env).outcome = Outcome.updateFailed ∨
    (onRun env).outcome = Outcome.updated ∨
    (onRun env).outcome = Outcome.createFailed ∨
    (onRun env).outcome = Outcome.created := by
  rcases onRun_spec env with ⟨_, h⟩ | ⟨sub, wn, dom, hv,
      ⟨_, h⟩ | ⟨_, _, h⟩ | ⟨_, _, h⟩ | ⟨_, ct, _, _, h⟩ | ⟨_, ct, _, _, h⟩⟩
  · simp [h]
  · simp [h]
  · simp [h]
  · simp [h]
  · simp [h]
  · rw [h]
    have := widgetPhase_outcome env sub wn ("https://" ++ dom ++ "/api/v1")
      (strStartsWith (lowerStr ct) "image/")
    tauto

/-- C2: if the conditional fetch responded 304, the run returns `unchanged`
and performs no side effects at all: no widget list/delete/create/update
call, no upload, and no cache-token write, the token staying identical. -/
theorem notModified_304_unchanged_no_side_effects (env : Env)
    (cfg : String × String × String) (h1 : validateSettings env = some cfg)
    (h2 : env.response.status = 304) :
    onRun env = ⟨Outcome.unchanged, [], env.storedToken⟩ := by
  obtain ⟨sub, wn, dom⟩ := cfg
  simp [onRun, h1, h2]

/-- C2 witness: the 304 theorem applied to a concrete environment. -/
theorem notModified_304_unchanged_no_side_effects_witness :
    onRun { demoEnv with response := { demoEnv.response with status := 304 } } =
      ⟨Outcome.unchanged, [], some "tok0"⟩ :=
  notModified_304_unchanged_no_side_effects
    { demoEnv with response := { demoEnv.response with status := 304 } }
    ("hurricane", "summary", "example.org") (by decide) (by decide)

/-- C5 counterexample: HTTP 204 is a 2xx success status (not 304), yet the
routine returns the http-error skip, because the code tests `status !== 200`. -/
theorem http_2xx_skip_counterexample :
    env204.response.status = 204 ∧ 200 ≤ env204.response.status ∧
    env204.response.status < 300 ∧
    (onRun env204).outcome = Outcome.httpError := by
  refine ⟨by decide, by decide, by decide, by decide⟩

/-- C5 (amended): the success status is exactly HTTP 200: for a 200 response
the routine never returns the http-error skip, and for every status other
than 200 and 304 it returns `skipped(http-error)` with no side effects. -/
theorem http_success_exactly_200_amended (env : Env)
    (cfg : String × String × String) (h1 : validateSettings env = some cfg) :
    (env.response.status = 200 → (onRun env).outcome ≠ Outcome.httpError)
    ∧ (env.response.status ≠ 200 → env.response.status ≠ 304 →
        onRun env = ⟨Outcome.httpError, [], env.storedToken⟩) := by
  obtain ⟨sub, wn, dom⟩ := cfg
  constructor
  · intro h200
    rcases onRun_spec env with ⟨hn, _⟩ | ⟨sub2, wn2, dom2, hv,
        ⟨h304, _⟩ | ⟨_, hne, _⟩ | ⟨_, _, h⟩ | ⟨_, ct, _, _, h⟩ | ⟨_, ct, _, _, h⟩⟩
    · rw [hn] at h1; exact absurd h1 (by simp)
    · rw [h200] at h304; exact absurd h304 (by decide)
    · exact absurd h200 hne
    · simp [h]
    · simp [h]
    · rw [h]
      have := widgetPhase_outcome env sub2 wn2 ("https://" ++ dom2 ++ "/api/v1")
        (strStartsWith (lowerStr ct) "image/")
      intro hc
      rcases this with h' | h' | h' | h' | h' | h' | h' <;> rw [hc] at h' <;> exact absurd h' (by decide)
  · intro h200 h304
    simp only [onRun, h1]
    have e304 : (env.response.status == 304) = false := by
      simp [Nat.beq_eq_true_eq, h304]
    have e200 : (env.response.status != 200) = true := by
      simp [bne, Nat.beq_eq_true_eq, h200]
    simp [e304, e200]

/-- C5 amended witness: concrete 200 and 500 responses. -/
theorem http_success_exactly_200_amended_witness :
    ((onRun demoEnv).outcome ≠ Outcome.httpError) ∧
    (onRun { demoEnv with response := { demoEnv.response with status := 500 } } =
      ⟨Outcome.httpError, [], some "tok0"⟩) :=
  ⟨(http_success_exactly_200_amended demoEnv ("hurricane", "summary", "example.org")
      (by decide)).1 (by decide),
   (http_success_exactly_200_amended
      { demoEnv with response := { demoEnv.response with status := 500 } }
      ("hurricane", "summary", "example.org") (by decide)).2 (by decide) (by decide)⟩

/-- C6: a declared content type outside `text/plain*` and `image/*` (after
lower-casing) ends the run with the invalid-content-type skip and no
mutation: no widget call, no upload, no cache-token write. -/
theorem invalid_content_type_skip_no_mutation (env : Env)
    (cfg : String × String × String) (h1 : validateSettings env = some cfg)
    (h2 : env.response.status = 200) (ct : String)
    (h3 : env.response.contentType = some ct)
    (h4 : strStartsWith (lowerStr ct) "text/plain" = false)
    (h5 : strStartsWith (lowerStr ct) "image/" = false) :
    onRun env = ⟨Outcome.invalidContentType, [], env.storedToken⟩ := by
  obtain ⟨sub, wn, dom⟩ := cfg
  simp [onRun, h1, h2, h3, h4, h5]

/-- C6 witness: a concrete application/json response. -/
theorem invalid_content_type_skip_no_mutation_witness :
    onRun { demoEnv with response :=
        { demoEnv.response with contentType := some "application/json" } } =
      ⟨Outcome.invalidContentType, [], some "tok0"⟩ :=
  invalid_content_type_skip_no_mutation
    { demoEnv with response :=
        { demoEnv.response with contentType := some "application/json" } }
    ("hurricane", "summary", "example.org") (by decide) (by decide)
    "application/json" (by decide) (by decide) (by decide)

/-- C7: when more than one existing widget matches the configured name
case-insensitively, the run ends with the ambiguous-existing skip after only
the widget-list read: no delete, create, update, upload, or cache-token
write, for either classified content variant. -/
theorem ambiguous_existing_skip_no_mutation (env : Env)
    (sub wn dom : String) (h1 : validateSettings env = some (sub, wn, dom))
    (h2 : env.response.status = 200) (ct : String)
    (h3 : env.response.contentType = some ct)
    (h4 : (strStartsWith (lowerStr ct) "text/plain"
            || strStartsWith (lowerStr ct) "image/") = true)
    (h5 : 1 < (env.widgets.filter (fun w => lowerStr w.name == wn)).length) :
    onRun env = ⟨Outcome.ambiguousExisting, [Event.listWidgets], env.storedToken⟩ := by
  have hb : onRun env = widgetPhase env sub wn ("https://" ++ dom ++ "/api/v1")
      (strStartsWith (lowerStr ct) "image/") := by
    simp only [onRun, h1, h3]
    have e304 : (env.response.status == 304) = false := by simp [h2]
    have e200 : (env.response.status != 200) = true → False := by simp [bne, h2]
    simp [e304, h2, h4]
  rw [hb]
  rcases widgetPhase_spec env sub wn ("https://" ++ dom ++ "/api/v1")
      (strStartsWith (lowerStr ct) "image/") with
      ⟨_, h⟩ | ⟨hnil, _⟩ | ⟨w, hone, _, _⟩ | ⟨w, hone, _, _, _⟩ | ⟨w, hone, _, _, _⟩
  · exact h
  · rw [hnil] at h5; exact absurd h5 (by decide)
  · rw [hone] at h5; simp at h5
  · rw [hone] at h5; simp at h5
  · rw [hone] at h5; simp at h5

/-- C7 witness: two widgets named like the target, image content. -/
theorem ambiguous_existing_skip_no_mutation_witness :
    onRun { demoEnv with
        response := { demoEnv.response with contentType := some "image/png" },
        widgets := [⟨"w1", "SUMMARY", WidgetKind.text⟩, ⟨"w2", "summary", WidgetKind.image⟩] } =
      ⟨Outcome.ambiguousExisting, [Event.listWidgets], some "tok0"⟩ :=
  ambiguous_existing_skip_no_mutation
    { demoEnv with
        response := { demoEnv.response with contentType := some "image/png" },
        widgets := [⟨"w1", "SUMMARY", WidgetKind.text⟩, ⟨"w2", "summary", WidgetKind.image⟩] }
    "hurricane" "summary" "example.org" (by decide) (by decide)
    "image/png" (by decide) (by decide) (by decide)

theorem validateSettings_withContentType (env : Env) (c : Option String) :
    validateSettings (withContentType env c) = validateSettings env := rfl

theorem widgetPhase_withContentType (env : Env) (c : Option String)
    (sub wn url : String) (cii : Bool) :
    widgetPhase (withContentType env c) sub wn url cii =
      widgetPhase env sub wn url cii := rfl

/-- C9: a response with no Content-Type header ends the run exactly as an
unrecognized declared type does (invalid-content-type skip, no mutation), and
the content-type classification is case-insensitive: two declared types that
agree after lower-casing produce identical runs. -/
theorem content_type_missing_or_case_insensitive (env : Env)
    (cfg : String × String × String) (h1 : validateSettings env = some cfg)
    (h2 : env.response.status = 200) :
    (env.response.contentType = none →
        onRun env = ⟨Outcome.invalidContentType, [], env.storedToken⟩)
    ∧ (∀ ct1 ct2 : String, lowerStr ct1 = lowerStr ct2 →
        onRun (withContentType env (some ct1)) = onRun (withContentType env (some ct2))) := by
  obtain ⟨sub, wn, dom⟩ := cfg
  constructor
  · intro hct
    simp [onRun, h1, h2, hct]
  · intro ct1 ct2 hl
    simp only [onRun, validateSettings_withContentType, h1]
    have hs1 : (withContentType env (some ct1)).response.status = env.response.status := rfl
    have hs2 : (withContentType env (some ct2)).response.status = env.response.status := rfl
    have hc1 : (withContentType env (some ct1)).response.contentType = some ct1 := rfl
    have hc2 : (withContentType env (some ct2)).response.contentType = some ct2 := rfl
    have ht1 : (withContentType env (some ct1)).storedToken = env.storedToken := rfl
    have ht2 : (withContentType env (some ct2)).storedToken = env.storedToken := rfl
    simp only [hs1, hs2, hc1, hc2, ht1, ht2, widgetPhase_withContentType, hl]

theorem updateWidget_ok (wd : WidgetData) (r : Option String)
    (h : wd.type = "image" ∨ wd.type = "textarea") :
    updateWidget wd r = Except.ok r := by
  unfold updateWidget
  rcases h with h | h <;> rw [h] <;> rfl

theorem mkWidgetData_type (env : Env) (sub wn : String) (cii : Bool)
    (ew : Option Widget) (ma : Option MediaAsset) :
    (mkWidgetData env sub wn cii ew ma).type = "image" ∨
    (mkWidgetData env sub wn cii ew ma).type = "textarea" := by
  cases cii <;> simp [mkWidgetData]

theorem buildAndStore_events_shape (env : Env) (sub wn : String) (cii : Bool)
    (ew : Option Widget) (ma : Option MediaAsset) (es : List Event) :
    ∃ m t, (buildAndStore env sub wn cii ew ma es).events = es ++ (m ++ t) ∧
      (∃ wd, (m = [Event.update wd] ∨ m = [Event.create wd]) ∧
        (wd.type = "image" ∨ wd.type = "textarea") ∧ wd.id = ew.map Widget.id) ∧
      (t = [] ∨ ∃ lm, t = [Event.setToken lm]) := by
  have htype := mkWidgetData_type env sub wn cii ew ma
  have hid := mkWidgetData_id env sub wn cii ew ma
  rcases buildAndStore_spec env sub wn cii ew ma es with
      ⟨_, _, h⟩ | ⟨_, _, h⟩ | ⟨_, _, h⟩ | ⟨_, _, h⟩
  · exact ⟨[Event.update (mkWidgetData env sub wn cii ew ma)], [],
      by rw [h]; simp, ⟨_, Or.inl rfl, htype, hid⟩, Or.inl rfl⟩
  · rcases (saveLastModified_spec env Outcome.updated
        (es ++ [Event.update (mkWidgetData env sub wn cii ew ma)])).2 with
        ⟨_, hev, _⟩ | ⟨_, hev, _⟩
    · exact ⟨[Event.update (mkWidgetData env sub wn cii ew ma)],
        [Event.setToken (env.response.lastModified.getD "")],
        by rw [h, hev]; simp, ⟨_, Or.inl rfl, htype, hid⟩, Or.inr ⟨_, rfl⟩⟩
    · exact ⟨[Event.update (mkWidgetData env sub wn cii ew ma)], [],
        by rw [h, hev]; simp, ⟨_, Or.inl rfl, htype, hid⟩, Or.inl rfl⟩
  · exact ⟨[Event.create (mkWidgetData env sub wn cii ew ma)], [],
      by rw [h]; simp, ⟨_, Or.inr rfl, htype, hid⟩, Or.inl rfl⟩
  · rcases (saveLastModified_spec env Outcome.created
        (es ++ [Event.create (mkWidgetData env sub wn cii ew ma)])).2 with
        ⟨_, hev, _⟩ | ⟨_, hev, _⟩
    · exact ⟨[Event.create (mkWidgetData env sub wn cii ew ma)],
        [Event.setToken (env.response.lastModified.getD "")],
        by rw [h, hev]; simp, ⟨_, Or.inr rfl, htype, hid⟩, Or.inr ⟨_, rfl⟩⟩
    · exact ⟨[Event.create (mkWidgetData env sub wn cii ew ma)], [],
        by rw [h, hev]; simp, ⟨_, Or.inr rfl, htype, hid⟩, Or.inl rfl⟩

theorem uploadAndWrite_events_shape (env : Env) (sub wn url : String) (cii : Bool)
    (ew : Option Widget) (es : List Event) :
    ∃ u m t, (uploadAndWrite env sub wn url cii ew es).events = es ++ (u ++ (m ++ t)) ∧
      (u = [] ∨ u = [Event.upload url]) ∧
      (m = [] ∨ ∃ wd, (m = [Event.update wd] ∨ m = [Event.create wd]) ∧
        (wd.type = "image" ∨ wd.type = "textarea") ∧ wd.id = ew.map Widget.id) ∧
      (t = [] ∨ ∃ lm, t = [Event.setToken lm]) := by
  rcases uploadAndWrite_spec env sub wn url cii ew es with
      ⟨_, _, h⟩ | ⟨_, _, h⟩ | ⟨_, h⟩
  · exact ⟨[Event.upload url], [], [], by rw [h]; simp, Or.inr rfl, Or.inl rfl, Or.inl rfl⟩
  · obtain ⟨m, t, hev, hm, ht⟩ :=
      buildAndStore_events_shape env sub wn cii ew env.uploadResult
        (es ++ [Event.upload url])
    exact ⟨[Event.upload url], m, t, by rw [h, hev]; simp, Or.inr rfl, Or.inr hm, ht⟩
  · obtain ⟨m, t, hev, hm, ht⟩ :=
      buildAndStore_events_shape env sub wn cii ew none es
    exact ⟨[], m, t, by rw [h, hev]; simp, Or.inl rfl, Or.inr hm, ht⟩

theorem onRun_events_shape (env : Env) :
    (onRun env).events = [] ∨
    (onRun env).events = [Event.listWidgets] ∨
    (∃ d u m t, (onRun env).events = Event.listWidgets :: (d ++ (u ++ (m ++ t))) ∧
      (d = [] ∨ ∃ i, d = [Event.deleteWidget i]) ∧
      (u = [] ∨ ∃ url, u = [Event.upload url]) ∧
      (m = [] ∨ ∃ wd, (m = [Event.update wd] ∨ m = [Event.create wd]) ∧
        (wd.type = "image" ∨ wd.type = "textarea")) ∧
      (t = [] ∨ ∃ lm, t = [Event.setToken lm])) := by
  rcases onRun_spec env with ⟨_, h⟩ | ⟨sub, wn, dom, hv,
      ⟨_, h⟩ | ⟨_, _, h⟩ | ⟨_, _, h⟩ | ⟨_, ct, _, _, h⟩ | ⟨_, ct, _, _, h⟩⟩
  · exact Or.inl (by rw [h])
  · exact Or.inl (by rw [h])
  · exact Or.inl (by rw [h])
  · exact Or.inl (by rw [h])
  · exact Or.inl (by rw [h])
  · rw [h]
    rcases widgetPhase_spec env sub wn ("https://" ++ dom ++ "/api/v1")
        (strStartsWith (lowerStr ct) "image/") with
        ⟨_, h2⟩ | ⟨_, h2⟩ | ⟨w, _, _, h2⟩ | ⟨w, _, _, _, h2⟩ | ⟨w, _, _, _, h2⟩
    · exact Or.inr (Or.inl (by rw [h2]))
    · obtain ⟨u, m, t, hev, hu, hm, ht⟩ := uploadAndWrite_events_shape env sub wn
        ("https://" ++ dom ++ "/api/v1") (strStartsWith (lowerStr ct) "image/")
        none [Event.listWidgets]
      rw [h2, hev]
      refine Or.inr (Or.inr ⟨[], u, m, t, by simp, Or.inl rfl,
        ?_, ?_, ht⟩)
      · rcases hu with hu | hu
        · exact Or.inl hu
        · exact Or.inr ⟨_, hu⟩
      · rcases hm with hm | ⟨wd, hwd, htype, _⟩
        · exact Or.inl hm
        · exact Or.inr ⟨wd, hwd, htype⟩
    · exact Or.inr (Or.inl (by rw [h2]))
    · obtain ⟨u, m, t, hev, hu, hm, ht⟩ := uploadAndWrite_events_shape env sub wn
        ("https://" ++ dom ++ "/api/v1") (strStartsWith (lowerStr ct) "image/")
        none [Event.listWidgets, Event.deleteWidget w.id]
      rw [h2, hev]
      refine Or.inr (Or.inr ⟨[Event.deleteWidget w.id], u, m, t, by simp,
        Or.inr ⟨_, rfl⟩, ?_, ?_, ht⟩)
      · rcases hu with hu | hu
        · exact Or.inl hu
        · exact Or.inr ⟨_, hu⟩
      · rcases hm with hm | ⟨wd, hwd, htype, _⟩
        · exact Or.inl hm
        · exact Or.inr ⟨wd, hwd, htype⟩
    · obtain ⟨u, m, t, hev, hu, hm, ht⟩ := uploadAndWrite_events_shape env sub wn
        ("https://" ++ dom ++ "/api/v1") (strStartsWith (lowerStr ct) "image/")
        (some w) [Event.listWidgets]
      rw [h2, hev]
      refine Or.inr (Or.inr ⟨[], u, m, t, by simp, Or.inl rfl,
        ?_, ?_, ht⟩)
      · rcases hu with hu | hu
        · exact Or.inl hu
        · exact Or.inr ⟨_, hu⟩
      · rcases hm with hm | ⟨wd, hwd, htype, _⟩
        · exact Or.inl hm
        · exact Or.inr ⟨wd, hwd, htype⟩

/-- C8: in every single run, at most one widget delete, at most one media
upload, at most one widget create-or-update, and at most one cache-token
write are performed, whatever the inputs and collaborator responses. -/
theorem at_most_one_side_effect_each (env : Env) :
    (onRun env).events.countP isDelete ≤ 1 ∧
    (onRun env).events.countP isUpload ≤ 1 ∧
    (onRun env).events.countP isCreate + (onRun env).events.countP isUpdate ≤ 1 ∧
    (onRun env).events.countP isSetToken ≤ 1 := by
  rcases onRun_events_shape env with h | h | ⟨d, u, m, t, hev, hd, hu, hm, ht⟩
  · simp [h]
  · simp [h, isDelete, isUpload, isCreate, isUpdate, isSetToken]
  · rw [hev]
    rcases hd with rfl | ⟨i, rfl⟩ <;> rcases hu with rfl | ⟨url, rfl⟩ <;>
      rcases hm with rfl | ⟨wd, rfl | rfl, _⟩ <;> rcases ht with rfl | ⟨lm, rfl⟩ <;>
      simp [isDelete, isUpload, isCreate, isUpdate, isSetToken,
        List.countP_cons, List.countP_nil, List.countP_append]

/-- C10: the 'Unknown widget type' throw in `updateWidget` is unreachable
from the job: every update call the run issues carries a widget-data object
whose type is exactly 'image' or 'textarea' (so `updateWidget` returns the
plugin result rather than throwing), and no run ends in an exception. -/
theorem updateWidget_unknown_type_unreachable (env : Env) :
    (∀ wd, Event.update wd ∈ (onRun env).events →
        (wd.type = "image" ∨ wd.type = "textarea") ∧
        updateWidget wd env.updateResult = Except.ok env.updateResult) ∧
    (∀ msg, (onRun env).outcome ≠ Outcome.exception msg) := by
  constructor
  · intro wd hmem
    rcases onRun_events_shape env with h | h | ⟨d, u, m, t, hev, hd, hu, hm, ht⟩
    · rw [h] at hmem; simp at hmem
    · rw [h] at hmem; simp at hmem
    · rw [hev] at hmem
      rcases hd with rfl | ⟨i, rfl⟩ <;> rcases hu with rfl | ⟨url, rfl⟩ <;>
        rcases hm with rfl | ⟨wd0, rfl | rfl, htype⟩ <;> rcases ht with rfl | ⟨lm, rfl⟩ <;>
        simp at hmem <;>
        (subst hmem; exact ⟨htype, updateWidget_ok _ env.updateResult htype⟩)
  · intro msg
    rcases onRun_outcome env with h | h | h | h | h | h | h | h | h | h | h <;>
      rw [h] <;> simp

theorem tokenSpec_saveLastModified (env : Env) (o : Outcome) (es : List Event)
    (hes : es.countP isSetToken = 0)
    (ho : o = Outcome.updated ∨ o = Outcome.created) :
    TokenSpec env (saveLastModified env o es) := by
  obtain ⟨hout, hrest⟩ := saveLastModified_spec env o es
  rcases hrest with ⟨htr, hev, htok⟩ | ⟨htr, hev, htok⟩
  · constructor
    · intro _
      refine ⟨?_, htok⟩
      rw [hev]
      simp [List.countP_append, List.countP_cons, isSetToken, hes]
    · intro hcon
      exact absurd ⟨by rw [hout]; exact ho, htr⟩ hcon
  · constructor
    · intro hcon
      rw [htr] at hcon
      simp at hcon
    · intro _
      rw [hev, htok]
      exact ⟨hes, rfl⟩

theorem tokenSpec_buildAndStore (env : Env) (sub wn : String) (cii : Bool)
    (ew : Option Widget) (ma : Option MediaAsset) (es : List Event)
    (hes : es.countP isSetToken = 0) :
    TokenSpec env (buildAndStore env sub wn cii ew ma es) := by
  rcases buildAndStore_spec env sub wn cii ew ma es with
      ⟨_, _, h⟩ | ⟨_, _, h⟩ | ⟨_, _, h⟩ | ⟨_, _, h⟩ <;> rw [h]
  · exact ⟨fun hcon => absurd hcon (by simp),
      fun _ => ⟨by simp [List.countP_append, List.countP_cons, isSetToken, hes], rfl⟩⟩
  · exact tokenSpec_saveLastModified env Outcome.updated _
      (by simp [List.countP_append, List.countP_cons, isSetToken, hes]) (Or.inl rfl)
  · exact ⟨fun hcon => absurd hcon (by simp),
      fun _ => ⟨by simp [List.countP_append, List.countP_cons, isSetToken, hes], rfl⟩⟩
  · exact tokenSpec_saveLastModified env Outcome.created _
      (by simp [List.countP_append, List.countP_cons, isSetToken, hes]) (Or.inr rfl)

theorem tokenSpec_uploadAndWrite (env : Env) (sub wn url : String) (cii : Bool)
    (ew : Option Widget) (es : List Event)
    (hes : es.countP isSetToken = 0) :
    TokenSpec env (uploadAndWrite env sub wn url cii ew es) := by
  rcases uploadAndWrite_spec env sub wn url cii ew es with
      ⟨_, _, h⟩ | ⟨_, _, h⟩ | ⟨_, h⟩ <;> rw [h]
  · exact ⟨fun hcon => absurd hcon (by simp),
      fun _ => ⟨by simp [List.countP_append, List.countP_cons, isSetToken, hes], rfl⟩⟩
  · exact tokenSpec_buildAndStore env sub wn cii ew env.uploadResult _
      (by simp [List.countP_append, List.countP_cons, isSetToken, hes])
  · exact tokenSpec_buildAndStore env sub wn cii ew none es hes

theorem tokenSpec_widgetPhase (env : Env) (sub wn url : String) (cii : Bool) :
    TokenSpec env (widgetPhase env sub wn url cii) := by
  rcases widgetPhase_spec env sub wn url cii with
      ⟨_, h⟩ | ⟨_, h⟩ | ⟨w, _, _, h⟩ | ⟨w, _, _, _, h⟩ | ⟨w, _, _, _, h⟩ <;> rw [h]
  · exact ⟨fun hcon => absurd hcon (by simp), fun _ => ⟨by simp [isSetToken], rfl⟩⟩
  · exact tokenSpec_uploadAndWrite env sub wn url cii none _ (by simp [isSetToken])
  · exact ⟨fun hcon => absurd hcon (by simp), fun _ => ⟨by simp [isSetToken], rfl⟩⟩
  · exact tokenSpec_uploadAndWrite env sub wn url cii none _ (by simp [isSetToken])
  · exact tokenSpec_uploadAndWrite env sub wn url cii (some w) _ (by simp [isSetToken])

/-- C1: the cache token under the last-modified key is written if and only if
the run reaches the updated or created outcome and the response carried a
(truthy) last-modified indicator; the written value is exactly that
indicator, and in every other case the stored token is unchanged. -/
theorem cache_token_written_iff_success (env : Env) :
    ((((onRun env).outcome = Outcome.updated ∨ (onRun env).outcome = Outcome.created) ∧
        strTruthy env.response.lastModified = true) →
      ((onRun env).events.countP isSetToken = 1 ∧
        (onRun env).token = env.response.lastModified)) ∧
    (¬(((onRun env).outcome = Outcome.updated ∨ (onRun env).outcome = Outcome.created) ∧
        strTruthy env.response.lastModified = true) →
      ((onRun env).events.countP isSetToken = 0 ∧
        (onRun env).token = env.storedToken)) := by
  have : TokenSpec env (onRun env) := by
    rcases onRun_spec env with ⟨_, h⟩ | ⟨sub, wn, dom, hv,
        ⟨_, h⟩ | ⟨_, _, h⟩ | ⟨_, _, h⟩ | ⟨_, ct, _, _, h⟩ | ⟨_, ct, _, _, h⟩⟩ <;> rw [h]
    · exact ⟨fun hcon => absurd hcon (by simp), fun _ => ⟨by simp, rfl⟩⟩
    · exact ⟨fun hcon => absurd hcon (by simp), fun _ => ⟨by simp, rfl⟩⟩
    · exact ⟨fun hcon => absurd hcon (by simp), fun _ => ⟨by simp, rfl⟩⟩
    · exact ⟨fun hcon => absurd hcon (by simp), fun _ => ⟨by simp, rfl⟩⟩
    · exact ⟨fun hcon => absurd hcon (by simp), fun _ => ⟨by simp, rfl⟩⟩
    · exact tokenSpec_widgetPhase env sub wn ("https://" ++ dom ++ "/api/v1")
        (strStartsWith (lowerStr ct) "image/")
  exact this

/-- C1 witness: a created run writes the token "lm1"; a run with no
last-modified header leaves the stored token "tok0" unchanged. -/
theorem cache_token_written_iff_success_witness :
    ((onRun demoEnv).events.countP isSetToken = 1 ∧
      (onRun demoEnv).token = some "lm1") ∧
    ((onRun { demoEnv with response := { demoEnv.response with lastModified := none } }).events.countP
        isSetToken = 0 ∧
      (onRun { demoEnv with response := { demoEnv.response with lastModified := none } }).token =
        some "tok0") :=
  ⟨(cache_token_written_iff_success demoEnv).1 (by decide),
   (cache_token_written_iff_success
      { demoEnv with response := { demoEnv.response with lastModified := none } }).2
      (by decide)⟩

/-- C9 witness: concrete missing-header skip, and the identical runs for
"TEXT/Plain" and "text/plain". -/
theorem content_type_missing_or_case_insensitive_witness :
    onRun { demoEnv with response := { demoEnv.response with contentType := none } } =
      ⟨Outcome.invalidContentType, [], some "tok0"⟩ ∧
    onRun (withContentType demoEnv (some "TEXT/Plain")) =
      onRun (withContentType demoEnv (some "text/plain")) :=
  ⟨(content_type_missing_or_case_insensitive
      { demoEnv with response := { demoEnv.response with contentType := none } }
      ("hurricane", "summary", "example.org") (by decide) (by decide)).1 rfl,
   (content_type_missing_or_case_insensitive demoEnv
      ("hurricane", "summary", "example.org") (by decide) (by decide)).2
      "TEXT/Plain" "text/plain" (by decide)⟩

theorem text_start_not_image_start (s : String)
    (h : strStartsWith s "text/plain" = true) :
    strStartsWith s "image/" = false := by
  unfold strStartsWith at h ⊢
  cases hd : s.data with
  | nil => rw [hd] at h; simp [List.isPrefixOf] at h
  | cons c cs =>
      rw [hd] at h
      show List.isPrefixOf "image/".data (c :: cs) = false
      simp [List.isPrefixOf] at h ⊢
      obtain ⟨hc, _⟩ := h
      simp [← hc]

theorem buildAndStore_none_spec (env : Env) (sub wn : String) (cii : Bool)
    (ma : Option MediaAsset) (es : List Event) :
    ∃ extra, (buildAndStore env sub wn cii none ma es).events = es ++ extra ∧
      extra.countP isDelete = 0 ∧ extra.countP isUpdate = 0 ∧
      extra.countP isUpload = 0 ∧
      extra.countP isCreate = 1 ∧ extra.countP isCreateNoId = 1 ∧
      (buildAndStore env sub wn cii none ma es).outcome ≠ Outcome.uploadFailed := by
  have hid : (mkWidgetData env sub wn cii none ma).id = none := rfl
  rcases buildAndStore_spec env sub wn cii none ma es with
      ⟨ht, _, _⟩ | ⟨ht, _, _⟩ | ⟨_, _, h⟩ | ⟨_, _, h⟩
  · simp [strTruthy] at ht
  · simp [strTruthy] at ht
  · refine ⟨[Event.create (mkWidgetData env sub wn cii none ma)], by rw [h], ?_, ?_, ?_, ?_, ?_, ?_⟩
    · simp [isDelete, List.countP_cons]
    · simp [isUpdate, List.countP_cons]
    · simp [isUpload, List.countP_cons]
    · simp [isCreate, List.countP_cons]
    · simp [isCreateNoId, List.countP_cons, hid]
    · rw [h]; simp
  · rcases (saveLastModified_spec env Outcome.created
        (es ++ [Event.create (mkWidgetData env sub wn cii none ma)])).2 with
        ⟨_, hev, _⟩ | ⟨_, hev, _⟩
    · refine ⟨[Event.create (mkWidgetData env sub wn cii none ma),
        Event.setToken (env.response.lastModified.getD "")],
        by rw [h, hev]; simp, ?_, ?_, ?_, ?_, ?_, ?_⟩
      · simp [isDelete, isSetToken, List.countP_cons]
      · simp [isUpdate, isSetToken, List.countP_cons]
      · simp [isUpload, isSetToken, List.countP_cons]
      · simp [isCreate, isSetToken, List.countP_cons]
      · simp [isCreateNoId, isSetToken, List.countP_cons, hid]
      · rw [h]
        have := (saveLastModified_spec env Outcome.created
          (es ++ [Event.create (mkWidgetData env sub wn cii none ma)])).1
        rw [this]
        simp
    · refine ⟨[Event.create (mkWidgetData env sub wn cii none ma)],
        by rw [h, hev], ?_, ?_, ?_, ?_, ?_, ?_⟩
      · simp [isDelete, List.countP_cons]
      · simp [isUpdate, List.countP_cons]
      · simp [isUpload, List.countP_cons]
      · simp [isCreate, List.countP_cons]
      · simp [isCreateNoId, List.countP_cons, hid]
      · rw [h]
        have := (saveLastModified_spec env Outcome.created
          (es ++ [Event.create (mkWidgetData env sub wn cii none ma)])).1
        rw [this]
        simp

theorem createPath_spec (env : Env) (sub wn url : String) (cii : Bool)
    (es : List Event) :
    ∃ extra, (uploadAndWrite env sub wn url cii none es).events = es ++ extra ∧
      extra.countP isDelete = 0 ∧ extra.countP isUpdate = 0 ∧
      extra.countP isCreate = extra.countP isCreateNoId ∧
      ((uploadAndWrite env sub wn url cii none es).outcome = Outcome.uploadFailed →
        extra.countP isCreate = 0) ∧
      ((uploadAndWrite env sub wn url cii none es).outcome ≠ Outcome.uploadFailed →
        extra.countP isCreate = 1) := by
  rcases uploadAndWrite_spec env sub wn url cii none es with
      ⟨_, _, h⟩ | ⟨_, _, h⟩ | ⟨_, h⟩
  · refine ⟨[Event.upload url], by rw [h], by simp [isDelete, List.countP_cons],
      by simp [isUpdate, List.countP_cons], by simp [isCreate, isCreateNoId, List.countP_cons],
      fun _ => by simp [isCreate, List.countP_cons], fun hne => absurd (by rw [h]) hne⟩
  · obtain ⟨extra, hev, hd, hu2, hupl, hc, hcn, hne⟩ :=
      buildAndStore_none_spec env sub wn cii env.uploadResult (es ++ [Event.upload url])
    refine ⟨[Event.upload url] ++ extra, by rw [h, hev]; simp, ?_, ?_, ?_, ?_, ?_⟩
    · simp [List.countP_append, isDelete, List.countP_cons, hd]
    · simp [List.countP_append, isUpdate, List.countP_cons, hu2]
    · simp [List.countP_append, isCreate, isCreateNoId, List.countP_cons, hc, hcn]
    · intro hcon
      rw [h] at hcon
      exact absurd hcon hne
    · intro _
      simp [List.countP_append, isCreate, List.countP_cons, hc]
  · obtain ⟨extra, hev, hd, hu2, hupl, hc, hcn, hne⟩ :=
      buildAndStore_none_spec env sub wn cii none es
    refine ⟨extra, by rw [h, hev], hd, hu2, by rw [hc, hcn], ?_, fun _ => hc⟩
    intro hcon
    rw [h] at hcon
    exact absurd hcon hne

theorem onRun_to_widgetPhase (env : Env) (sub wn dom : String)
    (h1 : validateSettings env = some (sub, wn, dom))
    (h2 : env.response.status = 200) (ct : String)
    (h3 : env.response.contentType = some ct)
    (h4 : (strStartsWith (lowerStr ct) "text/plain"
            || strStartsWith (lowerStr ct) "image/") = true) :
    onRun env = widgetPhase env sub wn ("https://" ++ dom ++ "/api/v1")
      (strStartsWith (lowerStr ct) "image/") := by
  simp only [onRun, h1, h3]
  have e304 : (env.response.status == 304) = false := by simp [h2]
  simp [e304, h2, h4]

theorem widgetPhase_delete_case (env : Env) (sub wn url : String) (cii : Bool)
    (w : Widget)
    (h5 : env.widgets.filter (fun x => lowerStr x.name == wn) = [w])
    (h6 : ((w.kind == WidgetKind.image) != cii) = true)
    (h7 : w.kind ≠ WidgetKind.other) :
    widgetPhase env sub wn url cii =
      uploadAndWrite env sub wn url cii none
        [Event.listWidgets, Event.deleteWidget w.id] := by
  cases hkind : w.kind with
  | other => exact absurd hkind h7
  | text =>
      rw [hkind] at h6
      cases cii with
      | false => simp at h6
      | true => simp [widgetPhase, h5, hkind]
  | image =>
      rw [hkind] at h6
      cases cii with
      | true => simp at h6
      | false => simp [widgetPhase, h5, hkind]

theorem widgetPhase_keep_case (env : Env) (sub wn url : String) (cii : Bool)
    (w : Widget)
    (h5 : env.widgets.filter (fun x => lowerStr x.name == wn) = [w])
    (h6 : ((w.kind == WidgetKind.image) != cii) = false)
    (h7 : w.kind ≠ WidgetKind.other) :
    widgetPhase env sub wn url cii =
      uploadAndWrite env sub wn url cii (some w) [Event.listWidgets] := by
  cases hkind : w.kind with
  | other => exact absurd hkind h7
  | text =>
      rw [hkind] at h6
      cases cii with
      | true => simp at h6
      | false => simp [widgetPhase, h5, hkind]
  | image =>
      rw [hkind] at h6
      cases cii with
      | false => simp at h6
      | true => simp [widgetPhase, h5, hkind]

/-- C3 counterexample: exactly one same-named widget whose variant (text)
differs from the freshly classified content (image); the existing widget is
deleted, but because the upload then fails, the create operation is never
invoked in this run — refuting the claim that the create path is always
reached. -/
theorem variant_change_create_counterexample :
    envMismatchUploadFail.widgets.filter (fun x => lowerStr x.name == "summary") =
      [⟨"w1", "Summary", WidgetKind.text⟩] ∧
    strStartsWith (lowerStr "image/png") "image/" = true ∧
    (onRun envMismatchUploadFail).events =
      [Event.listWidgets, Event.deleteWidget "w1", Event.upload "https://example.org/api/v1"] ∧
    (onRun envMismatchUploadFail).events.countP isCreate = 0 ∧
    (onRun envMismatchUploadFail).outcome = Outcome.uploadFailed := by
  refine ⟨by decide, by decide, by decide, by decide, by decide⟩

/-- C3 (amended): with exactly one case-insensitively matching widget whose
variant differs from the freshly classified content, the run deletes it
first and never invokes update; every create it issues carries no `id`, and
the create operation is invoked exactly once unless the run ends in the
upload-failed skip (image content whose upload failed), in which case no
create occurs. -/
theorem variant_change_delete_then_create_amended (env : Env)
    (sub wn dom : String) (h1 : validateSettings env = some (sub, wn, dom))
    (h2 : env.response.status = 200) (ct : String)
    (h3 : env.response.contentType = some ct)
    (h4 : (strStartsWith (lowerStr ct) "text/plain"
            || strStartsWith (lowerStr ct) "image/") = true)
    (w : Widget)
    (h5 : env.widgets.filter (fun x => lowerStr x.name == wn) = [w])
    (h6 : w.kind = (if strStartsWith (lowerStr ct) "image/"
            then WidgetKind.text else WidgetKind.image)) :
    (onRun env).events.take 2 = [Event.listWidgets, Event.deleteWidget w.id] ∧
    (onRun env).events.countP isDelete = 1 ∧
    (onRun env).events.countP isUpdate = 0 ∧
    (onRun env).events.countP isCreate = (onRun env).events.countP isCreateNoId ∧
    ((onRun env).outcome = Outcome.uploadFailed →
      (onRun env).events.countP isCreate = 0) ∧
    ((onRun env).outcome ≠ Outcome.uploadFailed →
      (onRun env).events.countP isCreate = 1) := by
  have hke : ((w.kind == WidgetKind.image) != strStartsWith (lowerStr ct) "image/") = true := by
    rw [h6]; cases strStartsWith (lowerStr ct) "image/" <;> simp
  have h7 : w.kind ≠ WidgetKind.other := by
    rw [h6]; cases strStartsWith (lowerStr ct) "image/" <;> simp
  have hrun := onRun_to_widgetPhase env sub wn dom h1 h2 ct h3 h4
  have hwp := widgetPhase_delete_case env sub wn ("https://" ++ dom ++ "/api/v1")
    (strStartsWith (lowerStr ct) "image/") w h5 hke h7
  rw [hrun, hwp]
  obtain ⟨extra, hev, hd, hu2, hcn, hf0, hf1⟩ := createPath_spec env sub wn
    ("https://" ++ dom ++ "/api/v1") (strStartsWith (lowerStr ct) "image/")
    [Event.listWidgets, Event.deleteWidget w.id]
  rw [hev]
  refine ⟨by simp, ?_, ?_, ?_, hf0, hf1⟩
  · simp [List.countP_cons, isDelete, hd]
  · simp [List.countP_cons, isUpdate, hu2]
  · simp [List.countP_cons, isCreate, isCreateNoId, hcn]

/-- C3 amended witness: existing image widget, fresh text response — delete
first, then exactly one create and no update. -/
theorem variant_change_delete_then_create_amended_witness :
    (onRun envMismatchTextFresh).events.take 2 =
      [Event.listWidgets, Event.deleteWidget "w9"] ∧
    (onRun envMismatchTextFresh).events.countP isUpdate = 0 ∧
    (onRun envMismatchTextFresh).events.countP isCreate = 1 := by
  obtain ⟨ha, _, hb, _, _, hc⟩ := variant_change_delete_then_create_amended
    envMismatchTextFresh "hurricane" "summary" "example.org" (by decide) (by decide)
    "text/plain" (by decide) (by decide) ⟨"w9", "Summary", WidgetKind.image⟩
    (by decide) (by decide)
  exact ⟨ha, hb, hc (by decide)⟩

/-- C4 counterexample: exactly one same-named text widget and a fresh text
response, but the update collaborator reports failure — the outcome is the
update-failed skip, not `updated`, refuting the unconditional claim. -/
theorem same_variant_text_update_counterexample :
    envTextUpdateFail.widgets.filter (fun x => lowerStr x.name == "summary") =
      [⟨"w1", "Summary", WidgetKind.text⟩] ∧
    strStartsWith (lowerStr "text/plain") "text/plain" = true ∧
    (onRun envTextUpdateFail).outcome = Outcome.updateFailed ∧
    ¬(onRun envTextUpdateFail).outcome = Outcome.updated := by
  refine ⟨by decide, by decide, by decide, by decide⟩

/-- C4 (amended): with exactly one case-insensitively matching text widget
with a non-empty `id`, a response classified as text, and an update
collaborator that reports success, the outcome is `updated`, the single
update call carries the existing widget's `id`, and no delete, create, or
upload occurs in the run. -/
theorem same_variant_text_update_amended (env : Env)
    (sub wn dom : String) (h1 : validateSettings env = some (sub, wn, dom))
    (h2 : env.response.status = 200) (ct : String)
    (h3 : env.response.contentType = some ct)
    (h4 : strStartsWith (lowerStr ct) "text/plain" = true)
    (w : Widget)
    (h5 : env.widgets.filter (fun x => lowerStr x.name == wn) = [w])
    (h6 : w.kind = WidgetKind.text) (h7 : w.id ≠ "")
    (h8 : env.updateResult ≠ none) :
    (onRun env).outcome = Outcome.updated ∧
    (onRun env).events.countP (isUpdateWithId w.id) = 1 ∧
    (onRun env).events.countP isUpdate = 1 ∧
    (onRun env).events.countP isDelete = 0 ∧
    (onRun env).events.countP isCreate = 0 ∧
    (onRun env).events.countP isUpload = 0 := by
  have hcii : strStartsWith (lowerStr ct) "image/" = false :=
    text_start_not_image_start (lowerStr ct) h4
  have h4or : (strStartsWith (lowerStr ct) "text/plain"
      || strStartsWith (lowerStr ct) "image/") = true := by simp [h4]
  have hke : ((w.kind == WidgetKind.image) != strStartsWith (lowerStr ct) "image/") = false := by
    rw [h6, hcii]; rfl
  have h7k : w.kind ≠ WidgetKind.other := by rw [h6]; simp
  have hrun := onRun_to_widgetPhase env sub wn dom h1 h2 ct h3 h4or
  have hwp := widgetPhase_keep_case env sub wn ("https://" ++ dom ++ "/api/v1")
    (strStartsWith (lowerStr ct) "image/") w h5 hke h7k
  rw [hrun, hwp, hcii]
  have hbu : uploadAndWrite env sub wn ("https://" ++ dom ++ "/api/v1") false
      (some w) [Event.listWidgets] =
      buildAndStore env sub wn false (some w) none [Event.listWidgets] := by
    simp [uploadAndWrite]
  rw [hbu]
  have htr : strTruthy ((some w).map Widget.id) = true := by
    simp [strTruthy, bne, h7]
  have hwdid : (mkWidgetData env sub wn false (some w) none).id = some w.id := rfl
  rcases buildAndStore_spec env sub wn false (some w) none [Event.listWidgets] with
      ⟨_, hu, _⟩ | ⟨_, _, h⟩ | ⟨hf, _, _⟩ | ⟨hf, _, _⟩
  · exact absurd hu h8
  · rw [h]
    have hout := (saveLastModified_spec env Outcome.updated
      ([Event.listWidgets] ++ [Event.update (mkWidgetData env sub wn false (some w) none)])).1
    rcases (saveLastModified_spec env Outcome.updated
        ([Event.listWidgets] ++ [Event.update (mkWidgetData env sub wn false (some w) none)])).2 with
        ⟨_, hev, _⟩ | ⟨_, hev, _⟩ <;>
      rw [hev] <;>
      exact ⟨hout, by simp [List.countP_cons, isUpdateWithId, isSetToken, hwdid],
        by simp [List.countP_cons, isUpdate, isSetToken],
        by simp [List.countP_cons, isDelete, isSetToken],
        by simp [List.countP_cons, isCreate, isSetToken],
        by simp [List.countP_cons, isUpload, isSetToken]⟩
  · rw [htr] at hf; exact absurd hf (by simp)
  · rw [htr] at hf; exact absurd hf (by simp)

/-- C4 amended witness: the amended update theorem at a concrete run. -/
theorem same_variant_text_update_amended_witness :
    (onRun envTextUpdateOk).outcome = Outcome.updated ∧
    (onRun envTextUpdateOk).events.countP (isUpdateWithId "w1") = 1 ∧
    (onRun envTextUpdateOk).events.countP isDelete = 0 ∧
    (onRun envTextUpdateOk).events.countP isCreate = 0 := by
  obtain ⟨ha, hb, _, hd, he, _⟩ := same_variant_text_update_amended envTextUpdateOk
    "hurricane" "summary" "example.org" (by decide) (by decide) "text/plain"
    (by decide) (by decide) ⟨"w1", "SUMMARY", WidgetKind.text⟩ (by decide)
    (by decide) (by decide) (by decide)
  exact ⟨ha, hb, hd, he⟩

/-- C10 witness: the update-call guarantee instantiated at a concrete run
that issues an update, and the absence of the unknown-type exception. -/
theorem updateWidget_unknown_type_unreachable_witness :
    ((wdTextW1.type = "image" ∨ wdTextW1.type = "textarea") ∧
      updateWidget wdTextW1 envTextUpdateOk.updateResult =
        Except.ok envTextUpdateOk.updateResult) ∧
    ¬(onRun envTextUpdateOk).outcome = Outcome.exception "Unknown widget type" :=
  ⟨(updateWidget_unknown_type_unreachable envTextUpdateOk).1 wdTextW1 (by decide),
   (updateWidget_unknown_type_unreachable envTextUpdateOk).2 "Unknown widget type"⟩

end DevvitWidgetAutomator
